import Mathlib

/-!
Verification of `ballistica/base/python/support/python_context_call.h`
(class `PythonContextCall`): a Python callable bundled with the ballistica
context state captured at its creation, plus diagnostic metadata.

The header declares the class (fields `line_`, `dead_`, `file_loc_`,
`object_`, `context_state_`, static `current_call_`) and contains the
inline bodies of `Exists`, the `PythonRef` constructor overload and the
`PythonRef` `Run` overload.  The out-of-line bodies (`Run(PyObject*)`,
`MarkDead`, `Schedule`, `ScheduleWeak`, the raw constructor) live in
`python_context_call.cc`, which is not part of this source tree; those are
modelled from the specification, as marked on each definition.

The embedding threads an explicit `World` holding everything the class
touches through globals or collaborators: the ambient ballistica context,
the process-wide current-call slot, the error-reporting channel, and an
observation log that stub callables write to (standing in for arbitrary
observable side effects of the foreign Python callable).
-/

namespace Ballistica

/-- A non-null Python object, abstracted as a numeric identity. -/
abbrev PyObj := Nat

/-- A raw nullable `PyObject*`: `none` models `nullptr`. -/
abbrev PyObjPtr := Option PyObj

/-- `PythonRef`: a reference-counted handle to a Python object; may be
empty. -/
structure PythonRef where
  obj : PyObjPtr
deriving DecidableEq

/-- `PythonRef::Get`: the raw pointer held by the reference. -/
def PythonRef.Get (r : PythonRef) : PyObjPtr := r.obj

/-- `PythonRef::Exists`: whether the handle currently holds an object. -/
def PythonRef.ExistsB (r : PythonRef) : Bool := r.obj.isSome

/-- One observation recorded by a stub callable: the args it received, the
ambient context it saw, and the current-call slot it saw. -/
abbrev Observation := PyObjPtr × Nat × Option Nat

/-- The mutable world surrounding a `PythonContextCall`: the ambient
ballistica context (an opaque token, abstracted as `Nat`), the
process-wide `current_call_` slot (identity of the call presently inside
`Run`, or `none`), the error-reporting channel, the observation log
written by stub callables, and the best-effort source-location
introspection facility (`none` when unavailable). -/
structure World where
  ambientContext : Nat
  currentCall : Option Nat
  errorReports : List String
  obsLog : List Observation
  traceInfo : Option (String × Int)
deriving DecidableEq

/-- A fresh world: no call running, nothing reported or observed. -/
def initialWorld : World :=
  { ambientContext := 0, currentCall := none, errorReports := []
    obsLog := [], traceInfo := none }

/-- The `PythonContextCall` entity, mirroring the private fields of the
class: `line_`, `dead_`, `file_loc_`, `object_`, `context_state_`.  The
`id` field models C++ object identity (the `this` pointer), needed for the
static `current_call_` slot and for weak references. -/
structure PythonContextCall where
  id : Nat
  line_ : Int := 0
  dead_ : Bool := false
  file_loc_ : String := ""
  object_ : PythonRef := ⟨none⟩
  context_state_ : Nat := 0
deriving DecidableEq

/-- Modelled from the spec: the raw-callable constructor
(`PythonContextCall(PyObject* callable)`, body in the missing
`python_context_call.cc`) stores the callable, captures the current
ambient context at that instant, and captures a best-effort source
location, leaving the fields empty when introspection is unavailable. -/
def PythonContextCall.create (i : Nat) (callable : PyObjPtr) (w : World) :
    PythonContextCall :=
  { id := i
    object_ := ⟨callable⟩
    context_state_ := w.ambientContext
    file_loc_ := match w.traceInfo with | some fl => fl.1 | none => ""
    line_ := match w.traceInfo with | some fl => fl.2 | none => 0 }

/-- The `PythonRef` constructor overload, inline in the header:
`PythonContextCall(const PythonRef& ref) : PythonContextCall(ref.Get())`. -/
def PythonContextCall.createFromRef (i : Nat) (ref : PythonRef) (w : World) :
    PythonContextCall :=
  PythonContextCall.create i ref.Get w

/-- `Exists`, inline in the header: `return object_.Exists();`. -/
def PythonContextCall.ExistsB (c : PythonContextCall) : Bool :=
  c.object_.ExistsB

/-- Modelled from the spec: `MarkDead` (body in the missing
`python_context_call.cc`) performs the one-way transition of the dead flag
to true and nothing else; the stored callable handle is not released. -/
def PythonContextCall.MarkDead (c : PythonContextCall) : PythonContextCall :=
  { c with dead_ := true }

/-- The behaviour of the foreign Python callable: given the args bundle
and the world at invocation time, produce the resulting world and whether
the invocation succeeded (`false` models a raised Python exception). -/
def Invoke := PyObjPtr → World → World × Bool

/-- Modelled from the spec: the dump of the currently active context that
accompanies an invocation-failure report (`PrintContext`). -/
def contextDump (w : World) : String :=
  "active context " ++ toString w.ambientContext

/-- Modelled from the spec: the diagnostic surfaced on invocation failure:
the creation site plus a dump of the currently active context. -/
def errorReport (c : PythonContextCall) (w : World) : String :=
  "Error in call created at " ++ c.file_loc_ ++ " line "
    ++ toString c.line_ ++ "; " ++ contextDump w

/-- The world as seen from inside an invocation: the current-call slot
points at the running call and its captured context snapshot is installed
as the ambient context. -/
def installWorld (c : PythonContextCall) (w : World) : World :=
  { w with currentCall := some c.id, ambientContext := c.context_state_ }

/-- Modelled from the spec: `Run(PyObject* args = nullptr)` (body in the
missing `python_context_call.cc`).  No-op when dead or empty; otherwise it
remembers the current-call slot and ambient context, installs itself and
its captured context, invokes the callable, surfaces a diagnostic through
the error-reporting channel on failure (swallowing the failure), and
unconditionally restores the saved ambient context and current-call
slot. -/
def PythonContextCall.Run (c : PythonContextCall) (invoke : Invoke)
    (args : PyObjPtr) (w : World) : World :=
  if c.dead_ || !c.ExistsB then w
  else
    let r := invoke args (installWorld c w)
    let reported :=
      if r.2 then r.1
      else { r.1 with errorReports := r.1.errorReports ++ [errorReport c r.1] }
    { reported with ambientContext := w.ambientContext
                    currentCall := w.currentCall }

/-- The `PythonRef` overload of `Run`, inline in the header:
`void Run(const PythonRef& args) { Run(args.Get()); }`. -/
def PythonContextCall.RunRef (c : PythonContextCall) (invoke : Invoke)
    (args : PythonRef) (w : World) : World :=
  c.Run invoke args.Get w

/-- The static accessor `current_call()`: reads the process-wide slot. -/
def current_call (w : World) : Option Nat := w.currentCall

/-- A reference held by a scheduled thunk: either strong (owning, keeps
the call alive by holding it) or weak (non-owning, identity only). -/
inductive SchedRef where
  | strong : PythonContextCall → SchedRef
  | weak : Nat → SchedRef
deriving DecidableEq

/-- A thunk enqueued into the deferred scheduler: the reference to the
call plus the args bundle to pass to `Run`. -/
structure Task where
  ref : SchedRef
  args : PyObjPtr
deriving DecidableEq

/-- Modelled from the spec: `Schedule` (body in the missing
`python_context_call.cc`) must be called from the logic thread — off the
logic thread it is a fatal contract violation; on it, it appends a thunk
holding a strong reference to the deferred-scheduler queue. -/
def PythonContextCall.Schedule (c : PythonContextCall) (onLogicThread : Bool)
    (args : PyObjPtr) (queue : List Task) : Except String (List Task) :=
  if onLogicThread then Except.ok (queue ++ [⟨SchedRef.strong c, args⟩])
  else Except.error "PythonContextCall.Schedule called off the logic thread"

/-- Modelled from the spec: `ScheduleWeak` (body in the missing
`python_context_call.cc`) must be called from the logic thread — off the
logic thread it is a fatal contract violation; on it, it appends a thunk
holding a weak (identity-only) reference to the deferred-scheduler
queue. -/
def PythonContextCall.ScheduleWeak (c : PythonContextCall)
    (onLogicThread : Bool) (args : PyObjPtr) (queue : List Task) :
    Except String (List Task) :=
  if onLogicThread then Except.ok (queue ++ [⟨SchedRef.weak c.id, args⟩])
  else
    Except.error "PythonContextCall.ScheduleWeak called off the logic thread"

/-- Resolve a thunk reference against the registry of calls that still
have owning references: a strong reference always resolves (the thunk
itself owns the call); a weak reference resolves only if some owning
reference still keeps a call with that identity alive. -/
def resolveRef : SchedRef → List PythonContextCall → Option PythonContextCall
  | SchedRef.strong c, _ => some c
  | SchedRef.weak i, registry => registry.find? (fun c => c.id == i)

/-- Modelled from the spec: what a scheduled thunk does when the deferred
scheduler drains it on the logic thread: resolve the reference; a weak
reference whose target is gone makes the thunk a silent no-op; otherwise
run the call with the stored args. -/
def runTask (t : Task) (registry : List PythonContextCall) (invoke : Invoke)
    (w : World) : World :=
  match resolveRef t.ref registry with
  | none => w
  | some c => c.Run invoke t.args w

/-- A stub callable that always succeeds and records what it received and
observed: its args, the ambient context, and the current-call slot. -/
def countingStub : Invoke := fun args w =>
  ({ w with obsLog := w.obsLog ++ [(args, w.ambientContext, w.currentCall)] },
   true)

/-- A stub callable that records its observation and then fails (models a
Python callable that raises). -/
def failingStub : Invoke := fun args w =>
  ({ w with obsLog := w.obsLog ++ [(args, w.ambientContext, w.currentCall)] },
   false)

/-- A sample live call for closed scenarios: identity 1, wrapping callable
object 10, created in the fresh world (captured context 0). -/
def sampleCallA : PythonContextCall :=
  PythonContextCall.create 1 (some 10) initialWorld

/-- A second sample live call, used as the nested invocation target. -/
def sampleCallB : PythonContextCall :=
  PythonContextCall.create 2 (some 20) initialWorld

/-- A stub behaviour that records an observation, runs a second context
call from inside its body (a nested invocation), then records again. -/
def nestedInvoke : Invoke := fun args w =>
  let w1 := (countingStub args w).1
  let w2 := sampleCallB.Run countingStub none w1
  countingStub args w2

/-- A dead call never runs: lemma used by several claims. -/
theorem run_dead_eq (c : PythonContextCall) (h : c.dead_ = true)
    (invoke : Invoke) (args : PyObjPtr) (w : World) :
    c.Run invoke args w = w := by
  simp [PythonContextCall.Run, h]

/-- Claim C1: once `MarkDead` has been called, every subsequent `Run` —
direct, iterated any number of times, or fired through a previously
scheduled strong or weak thunk — leaves the world unchanged for every
possible callable behaviour: the foreign callable is never invoked. -/
theorem markDead_run_noop (c : PythonContextCall) (invoke : Invoke)
    (args : PyObjPtr) (w : World) (n : Nat)
    (registry : List PythonContextCall) :
    (c.MarkDead.Run invoke args w = w) ∧
    ((fun w0 => c.MarkDead.Run invoke args w0)^[n] w = w) ∧
    (runTask ⟨SchedRef.strong c.MarkDead, args⟩ registry invoke w = w) ∧
    (runTask ⟨SchedRef.weak c.MarkDead.id, args⟩ [c.MarkDead] invoke w = w) := by
  have hdead : c.MarkDead.dead_ = true := rfl
  have hrun : ∀ w0 : World, c.MarkDead.Run invoke args w0 = w0 := fun w0 =>
    run_dead_eq c.MarkDead hdead invoke args w0
  refine ⟨hrun w, ?_, ?_, ?_⟩
  · induction n with
    | zero => rfl
    | succ k ih => rw [Function.iterate_succ_apply, hrun w, ih]
  · simp [runTask, resolveRef, hrun w]
  · simp [runTask, resolveRef, List.find?, hrun w]

/-- Claim C2: `Run` always restores the ambient context: the ambient
context after `Run` returns equals the ambient context before `Run` was
called, for every callable behaviour (succeeding or failing) and on the
dead/empty no-op path alike. -/
theorem run_restores_ambient (c : PythonContextCall) (invoke : Invoke)
    (args : PyObjPtr) (w : World) :
    (c.Run invoke args w).ambientContext = w.ambientContext := by
  unfold PythonContextCall.Run
  by_cases h : (c.dead_ || !c.ExistsB) = true
  · simp [h]
  · simp [h]

/-- Claim C3: when the invoked callable fails, `Run` returns normally: the
result is the callable's post-invocation world with one diagnostic report
(creation site plus active-context dump) appended to the error-reporting
channel and with the ambient context and current-call slot restored — the
failure is swallowed, never propagated to the caller. -/
theorem run_swallows_failure (c : PythonContextCall) (invoke : Invoke)
    (args : PyObjPtr) (w : World)
    (hdead : c.dead_ = false) (hex : c.ExistsB = true)
    (hfail : (invoke args (installWorld c w)).2 = false) :
    c.Run invoke args w =
      { (invoke args (installWorld c w)).1 with
          errorReports := (invoke args (installWorld c w)).1.errorReports
            ++ [errorReport c (invoke args (installWorld c w)).1]
          ambientContext := w.ambientContext
          currentCall := w.currentCall } := by
  simp [PythonContextCall.Run, hdead, hex, hfail]

/-- Witness for C3: the sample live call run with the failing stub in the
fresh world. -/
theorem run_swallows_failure_witness :
    sampleCallA.Run failingStub none initialWorld =
      { (failingStub none (installWorld sampleCallA initialWorld)).1 with
          errorReports :=
            (failingStub none (installWorld sampleCallA initialWorld)).1.errorReports
              ++ [errorReport sampleCallA
                    (failingStub none (installWorld sampleCallA initialWorld)).1]
          ambientContext := initialWorld.ambientContext
          currentCall := initialWorld.currentCall } :=
  run_swallows_failure sampleCallA failingStub none initialWorld rfl rfl rfl

/-- Claim C4: the context snapshot is captured at construction and never
recaptured: a call created while ambient context `X` was active, run later
in an arbitrary world `w1` (whose ambient context may have changed to some
`Y`), lets the callable observe `X` during its body, and after `Run`
returns the ambient context of `w1` is in force again. -/
theorem context_captured_at_construction (i : Nat) (p : PyObj)
    (w0 w1 : World) (args : PyObjPtr) :
    ((PythonContextCall.create i (some p) w0).context_state_
        = w0.ambientContext) ∧
    ((installWorld (PythonContextCall.create i (some p) w0) w1).ambientContext
        = w0.ambientContext) ∧
    (((PythonContextCall.create i (some p) w0).Run countingStub args w1).obsLog
        = w1.obsLog ++ [(args, w0.ambientContext, some i)]) ∧
    (((PythonContextCall.create i (some p) w0).Run countingStub args
        w1).ambientContext = w1.ambientContext) := by
  refine ⟨rfl, rfl, ?_, ?_⟩
  · simp [PythonContextCall.Run, PythonContextCall.ExistsB, PythonRef.ExistsB,
      PythonContextCall.create, countingStub, installWorld]
  · simp [PythonContextCall.Run, PythonContextCall.ExistsB, PythonRef.ExistsB,
      PythonContextCall.create, countingStub, installWorld]

/-- Claim C5: `Schedule` enqueues a thunk holding a strong (owning)
reference: on the logic thread it appends a strong thunk to the queue;
when that thunk fires it runs the call no matter what the registry of
other owning references holds (even when empty, i.e. every other reference
dropped); and for a live call the counting stub records exactly one
invocation. -/
theorem schedule_strong_durable (c : PythonContextCall) (args : PyObjPtr)
    (queue : List Task) (invoke : Invoke) (w : World)
    (registry : List PythonContextCall) :
    (c.Schedule true args queue
        = Except.ok (queue ++ [⟨SchedRef.strong c, args⟩])) ∧
    (runTask ⟨SchedRef.strong c, args⟩ registry invoke w
        = c.Run invoke args w) ∧
    (c.dead_ = false → c.ExistsB = true →
      (runTask ⟨SchedRef.strong c, args⟩ [] countingStub w).obsLog.length
        = w.obsLog.length + 1) := by
  refine ⟨rfl, rfl, fun hdead hex => ?_⟩
  simp [runTask, resolveRef, PythonContextCall.Run, hdead, hex, countingStub,
    installWorld]

/-- Witness for C5: the strong thunk for the sample live call, fired with
every other reference dropped, yields exactly one recorded invocation. -/
theorem schedule_strong_durable_witness :
    (runTask ⟨SchedRef.strong sampleCallA, none⟩ [] countingStub
        initialWorld).obsLog.length = initialWorld.obsLog.length + 1 :=
  (schedule_strong_durable sampleCallA none [] countingStub initialWorld
    []).2.2 rfl rfl

/-- Claim C6: `ScheduleWeak` enqueues a thunk holding a weak (non-owning)
reference: on the logic thread it appends an identity-only thunk; when the
thunk fires after every owning reference is gone it is a silent no-op (the
world — observation log and error channel included — is unchanged); and
when an owning reference still keeps the identity alive it runs the
resolved call normally. -/
theorem scheduleWeak_expired_noop (c : PythonContextCall) (args : PyObjPtr)
    (queue : List Task) (invoke : Invoke) (w : World)
    (registry : List PythonContextCall) :
    (c.ScheduleWeak true args queue
        = Except.ok (queue ++ [⟨SchedRef.weak c.id, args⟩])) ∧
    (registry.find? (fun x => x.id == c.id) = none →
      runTask ⟨SchedRef.weak c.id, args⟩ registry invoke w = w) ∧
    (∀ c2, registry.find? (fun x => x.id == c.id) = some c2 →
      runTask ⟨SchedRef.weak c.id, args⟩ registry invoke w
        = c2.Run invoke args w) := by
  refine ⟨rfl, fun hnone => ?_, fun c2 hsome => ?_⟩
  · simp [runTask, resolveRef, hnone]
  · simp [runTask, resolveRef, hsome]

/-- Witness for C6: the weak thunk for the sample call, fired against an
empty registry (all owning references dropped), leaves the fresh world
untouched. -/
theorem scheduleWeak_expired_noop_witness :
    runTask ⟨SchedRef.weak sampleCallA.id, none⟩ [] countingStub initialWorld
      = initialWorld :=
  (scheduleWeak_expired_noop sampleCallA none [] countingStub initialWorld
    []).2.1 rfl

/-- Claim C7: the current-call slot discipline: it is `none` in the fresh
world; from inside an invocation it names the running call; every `Run`
restores it to its prior value on return; and push/pop balances under
nesting — in the concrete nested scenario the stubs observe call 1, then
call 2, then call 1 again, and the slot is `none` after the outer `Run`
returns. -/
theorem current_call_discipline (c : PythonContextCall) (invoke : Invoke)
    (args : PyObjPtr) (w : World) :
    (current_call initialWorld = none) ∧
    (current_call (installWorld c w) = some c.id) ∧
    (current_call (c.Run invoke args w) = current_call w) ∧
    ((sampleCallA.Run nestedInvoke none initialWorld).obsLog.map
        (fun e => e.2.2) = [some 1, some 2, some 1]) ∧
    (current_call (sampleCallA.Run nestedInvoke none initialWorld) = none) := by
  refine ⟨rfl, rfl, ?_, ?_, ?_⟩
  · unfold PythonContextCall.Run
    by_cases h : (c.dead_ || !c.ExistsB) = true
    · simp [h, current_call]
    · simp [h, current_call]
  · rfl
  · rfl

/-- Claim C8: `MarkDead` is idempotent and releases nothing eagerly: a
second `MarkDead` changes nothing, the stored callable handle and every
other field are retained unchanged (so `Exists` answers exactly as
before), and only the dead flag transitions — one way — to true. -/
theorem markDead_idempotent (c : PythonContextCall) :
    (c.MarkDead.MarkDead = c.MarkDead) ∧
    (c.MarkDead.object_ = c.object_) ∧
    (c.MarkDead.ExistsB = c.ExistsB) ∧
    (c.MarkDead.dead_ = true) ∧
    (c.MarkDead.file_loc_ = c.file_loc_) ∧
    (c.MarkDead.line_ = c.line_) ∧
    (c.MarkDead.context_state_ = c.context_state_) ∧
    (c.MarkDead.id = c.id) :=
  ⟨rfl, rfl, rfl, rfl, rfl, rfl, rfl, rfl⟩

/-- Claim C9: thread affinity of scheduling: off the logic thread both
`Schedule` and `ScheduleWeak` are fatal contract violations — they produce
an error, not a completed enqueue; on the logic thread both enqueue
successfully, so the fatal branch is unreachable when the precondition
holds. -/
theorem schedule_thread_affinity (c : PythonContextCall) (args : PyObjPtr)
    (queue : List Task) :
    (c.Schedule false args queue = Except.error
      "PythonContextCall.Schedule called off the logic thread") ∧
    (c.ScheduleWeak false args queue = Except.error
      "PythonContextCall.ScheduleWeak called off the logic thread") ∧
    (c.Schedule true args queue
      = Except.ok (queue ++ [⟨SchedRef.strong c, args⟩])) ∧
    (c.ScheduleWeak true args queue
      = Except.ok (queue ++ [⟨SchedRef.weak c.id, args⟩])) :=
  ⟨rfl, rfl, rfl, rfl⟩

/-- Claim C10: the `PythonRef` overloads are pure delegations, exactly as
written inline in the header: constructing from a reference wrapper equals
constructing from its raw object, and `Run` with a `PythonRef` args bundle
equals `Run` with the raw pointer it wraps. -/
theorem ref_overloads_delegate (i : Nat) (r : PythonRef) (w : World)
    (c : PythonContextCall) (invoke : Invoke) (args : PythonRef)
    (w2 : World) :
    (PythonContextCall.createFromRef i r w
      = PythonContextCall.create i r.Get w) ∧
    (c.RunRef invoke args w2 = c.Run invoke args.Get w2) :=
  ⟨rfl, rfl⟩

end Ballistica
